import Mathlib

/-!
Verification of the YojanaGPT rule-evaluation core.

This file gives a shallow embedding, in Lean 4, of the decision logic of the
repository: the clause evaluator of rule_evaluator.py (eval_operator,
get_user_value, evaluate_scheme_rules), the parallel engine of rule_engine.py
(coerce_numeric, evaluate_single_rule, evaluate_scheme_eligibility), the
freshness penalty of ranking.py (compute_freshness_penalty), and the gender
disambiguation of gender_utils.py and ranking.py (detect_gender_from_required
clauses, detect_gender_from_title, extract_scheme_gender, the parallel
ranking-module extractor, split_by_gender_buckets and bucket selection).

Modelling conventions:
* Python scalar and container values are modelled by the inductive type
  Value; Python int and float collapse into a single exact rational
  constructor (Value.num), so float rounding, inf and nan are outside the
  model.  Dictionaries are association lists with distinct keys in source
  order, as produced by JSON parsing.
* Python exceptions that the source code does not catch are modelled with
  Except Unit: an error value means the Python call raises and produces no
  result at all.  Caught exceptions are folded into the value the handler
  returns, exactly as in the source.
* Operations of the Python standard library that the code calls (float(),
  int(), str.split, datetime.strptime, timedelta.days) are modelled
  directly, restricted to the value shapes that can actually reach them.
-/

/-- A Python value as it can occur in profiles, clauses and eligibility
specs: None, bool, a number (int and float collapsed to an exact rational),
a string, a list, or a string-keyed dict. -/
inductive Value where
  | none : Value
  | bool : Bool → Value
  | num : Rat → Value
  | str : String → Value
  | list : List Value → Value
  | dict : List (String × Value) → Value

/-- The tri-state clause status returned by eval_operator. -/
inductive Status where
  | matched : Status
  | unmet : Status
  | unknown : Status
deriving DecidableEq, Repr

/-- First-occurrence lookup in an association list (Python dict access;
dicts are modelled with distinct keys, so first occurrence is the value). -/
def lookupKey (l : List (String × Value)) (k : String) : Option Value :=
  match l with
  | [] => Option.none
  | (k1, v) :: t => if k1 = k then some v else lookupKey t k

/-- Python truthiness for the modelled values: None, False, 0, the empty
string, the empty list and the empty dict are falsy. -/
def truthy (v : Value) : Bool :=
  match v with
  | .none => false
  | .bool b => b
  | .num q => q ≠ 0
  | .str s => s ≠ ""
  | .list l => !l.isEmpty
  | .dict d => !d.isEmpty

/-- The rational 1 or 0 that Python arithmetic gives a bool (bool is a
subtype of int in Python). -/
def boolQ (b : Bool) : Rat := if b then 1 else 0

/-- Value of a list of decimal digit characters. -/
def natOfDigits (cs : List Char) : Nat :=
  cs.foldl (fun acc c => 10 * acc + (c.toNat - 48)) 0

/-- All characters are decimal digits. -/
def allDigits (cs : List Char) : Bool :=
  cs.all Char.isDigit

/-- Strip one leading sign character, reporting whether it was a minus. -/
def splitSign : List Char → (Bool × List Char)
  | '-' :: rest => (true, rest)
  | '+' :: rest => (false, rest)
  | cs => (false, cs)

/-- Model of the Python float(string) conversion: optional surrounding
whitespace, optional sign, decimal digits with an optional fractional part
and an optional exponent part.  The inf and nan spellings and underscore
digit separators are outside the model (no input in this development uses
them); every other input is accepted or rejected exactly as float() is. -/
def parseFloat (s : String) : Option Rat :=
  let cs := s.trim.toList
  let (neg, cs1) := splitSign cs
  let (mant, rest) := cs1.span (fun c => !(c == 'e' || c == 'E'))
  let expVal : Option Int :=
    match rest with
    | [] => some 0
    | _ :: expPart =>
      let (eneg, edigits) := splitSign expPart
      if !edigits.isEmpty && allDigits edigits then
        some (if eneg then -(Int.ofNat (natOfDigits edigits)) else Int.ofNat (natOfDigits edigits))
      else Option.none
  match expVal with
  | Option.none => Option.none
  | some e =>
    let (ip, dotRest) := mant.span (fun c => !(c == '.'))
    let fp := match dotRest with
      | [] => []
      | _ :: t => t
    if !(ip ++ fp).isEmpty && allDigits ip && allDigits fp then
      let m : Rat := (natOfDigits (ip ++ fp) : Rat) / ((10 : Rat) ^ fp.length)
      let signed := if neg then -m else m
      some (if 0 ≤ e then signed * (10 : Rat) ^ e.toNat else signed / (10 : Rat) ^ (-e).toNat)
    else Option.none

/-- The safe_convert helper of eval_operator (rule_evaluator.py lines
25-31): ints, floats and bools become floats; strings that parse as a float
after stripping thousands separators become floats, other strings are
lowercased; every other value is returned unchanged (float(str(v)) cannot
succeed for None, lists or dicts, so the except branch returns v). -/
def safe_convert (v : Value) : Value :=
  match v with
  | .bool b => .num (boolQ b)
  | .num q => .num q
  | .str s =>
    match parseFloat (s.replace "," "") with
    | some q => .num q
    | Option.none => .str s.toLower
  | v => v

mutual

/-- Python equality (the == operator) on modelled values.  Bools compare as
their numeric value, None equals only None, numbers and strings compare
within their kind, lists compare elementwise, dicts compare as key-ordered
association lists (the model keeps dicts in a canonical key order, where
the order-insensitive Python dict equality coincides with pairwise
comparison), and every remaining mixed pair is unequal. -/
def pyEq : Value → Value → Bool
  | .none, .none => true
  | .bool a, .bool b => a = b
  | .bool a, .num q => boolQ a = q
  | .num q, .bool b => q = boolQ b
  | .num a, .num b => a = b
  | .str a, .str b => a = b
  | .list a, .list b => pyEqList a b
  | .dict a, .dict b => pyEqDict a b
  | _, _ => false

/-- Elementwise Python equality of lists. -/
def pyEqList : List Value → List Value → Bool
  | [], [] => true
  | a :: as1, b :: bs => pyEq a b && pyEqList as1 bs
  | _, _ => false

/-- Pairwise Python equality of dicts in canonical key order. -/
def pyEqDict : List (String × Value) → List (String × Value) → Bool
  | [], [] => true
  | (k1, v1) :: t1, (k2, v2) :: t2 => k1 = k2 && pyEq v1 v2 && pyEqDict t1 t2
  | _, _ => false

end

/-- Strict lexicographic comparison of character lists by code point, the
Python string ordering. -/
def charsLt : List Char → List Char → Bool
  | [], [] => false
  | [], _ :: _ => true
  | _ :: _, [] => false
  | a :: as1, b :: bs => a.toNat < b.toNat || (a = b && charsLt as1 bs)

mutual

/-- Python strict less-than; Option.none models a TypeError (mixed
operand kinds, None, or dict operands are unorderable). -/
def pyLt : Value → Value → Option Bool
  | .num a, .num b => some (decide (a < b))
  | .num a, .bool b => some (decide (a < boolQ b))
  | .bool a, .num b => some (decide (boolQ a < b))
  | .bool a, .bool b => some (decide (boolQ a < boolQ b))
  | .str a, .str b => some (charsLt a.toList b.toList)
  | .list a, .list b => pyLtList a b
  | _, _ => Option.none

/-- Python list less-than: skip equal prefixes, compare the first
differing elements, shorter prefix is smaller. -/
def pyLtList : List Value → List Value → Option Bool
  | [], [] => some false
  | [], _ :: _ => some true
  | _ :: _, [] => some false
  | a :: as1, b :: bs => if pyEq a b then pyLtList as1 bs else pyLt a b

end

mutual

/-- Python less-or-equal; Option.none models a TypeError. -/
def pyLe : Value → Value → Option Bool
  | .num a, .num b => some (decide (a ≤ b))
  | .num a, .bool b => some (decide (a ≤ boolQ b))
  | .bool a, .num b => some (decide (boolQ a ≤ b))
  | .bool a, .bool b => some (decide (boolQ a ≤ boolQ b))
  | .str a, .str b => some (!charsLt b.toList a.toList)
  | .list a, .list b => pyLeList a b
  | _, _ => Option.none

/-- Python list less-or-equal: skip equal prefixes, compare the first
differing elements, a prefix is smaller-or-equal. -/
def pyLeList : List Value → List Value → Option Bool
  | [], _ => some true
  | _ :: _, [] => some false
  | a :: as1, b :: bs => if pyEq a b then pyLeList as1 bs else pyLe a b

end

/-- Map a Python comparison outcome to a clause status; a raised TypeError
is caught by the except clause of eval_operator and becomes unknown. -/
def statusOfCmp : Option Bool → Status
  | some true => .matched
  | some false => .unmet
  | Option.none => .unknown

/-- The membership test of the exists operator (rule_evaluator.py line 39):
user_value not in (None, False, "", "no", "false"), under Python equality,
so 0 and 0.0 also equal False. -/
def inExistsTuple (v : Value) : Bool :=
  match v with
  | .none => true
  | .bool b => !b
  | .num q => q = 0
  | .str s => s = "" || s = "no" || s = "false"
  | _ => false

/-- Python membership of a value in a list, elementwise ==. -/
def pyMemList (u : Value) : List Value → Bool
  | [] => false
  | x :: xs => pyEq u x || pyMemList u xs

/-- Bool test that a list of characters starts with a given prefix list. -/
def charsPrefix : List Char → List Char → Bool
  | [], _ => true
  | _ :: _, [] => false
  | a :: as1, b :: bs => a = b && charsPrefix as1 bs

/-- Bool test that hay contains needle as a contiguous substring (Python
substring membership test on strings). -/
def charsContains : List Char → List Char → Bool
  | [], needle => needle.isEmpty
  | hay@(_ :: t), needle => charsPrefix needle hay || charsContains t needle

/-- The between branch of eval_operator (rule_evaluator.py lines 42-49):
the rule value must be a dict with both a min and a max key; its bounds go
through safe_convert and all three operands must then be numeric, else the
status is unknown; otherwise an inclusive range test. -/
def evalBetween (user_val : Value) (rule_value : Value) : Status :=
  match rule_value with
  | .dict kvs =>
    match lookupKey kvs "min", lookupKey kvs "max" with
    | some mn, some mx =>
      match user_val, safe_convert mn, safe_convert mx with
      | .num u, .num lo, .num hi =>
        if lo ≤ u ∧ u ≤ hi then .matched else .unmet
      | _, _, _ => .unknown
    | _, _ => .unknown
  | _ => .unknown

/-- The in branch of eval_operator (lines 64-67): the rule value must be
iterable and not a string (a converted string is either a number or stays a
string, both rejected); membership is Python == against list elements, or
against the keys when the rule value is a dict. -/
def evalIn (user_val rule_val : Value) : Status :=
  match rule_val with
  | .list xs => if pyMemList user_val xs then .matched else .unmet
  | .dict kvs => if kvs.any (fun kv => pyEq user_val (.str kv.1)) then .matched else .unmet
  | _ => .unknown

/-- The contains branch of eval_operator (lines 68-71): both converted
operands must be strings; lowercased substring test of the rule value
inside the user value. -/
def evalContains (user_val rule_val : Value) : Status :=
  match user_val, rule_val with
  | .str u, .str r => if charsContains u.toLower.toList r.toLower.toList then .matched else .unmet
  | _, _ => .unknown

/-- eval_operator of rule_evaluator.py (lines 7-76).  A None user value is
unknown before anything else; both operands then go through safe_convert
(the rule value only when the operator is not between); the operator
branches follow the source order, and an unrecognized operator is unknown.
TypeErrors raised by mixed comparisons are caught by the surrounding
except clause and give unknown, which statusOfCmp encodes. -/
def eval_operator (operator : String) (user_value rule_value : Value) : Status :=
  match user_value with
  | .none => .unknown
  | _ =>
    let user_val := safe_convert user_value
    let rule_val := if operator = "between" then rule_value else safe_convert rule_value
    if operator = "exists" then
      if inExistsTuple user_value then .unmet else .matched
    else if operator = "between" then
      evalBetween user_val rule_value
    else if operator = "=" then
      if pyEq user_val rule_val then .matched else .unmet
    else if operator = "!=" then
      if pyEq user_val rule_val then .unmet else .matched
    else if operator = "<" then
      statusOfCmp (pyLt user_val rule_val)
    else if operator = "<=" then
      statusOfCmp (pyLe user_val rule_val)
    else if operator = ">" then
      statusOfCmp (pyLt rule_val user_val)
    else if operator = ">=" then
      statusOfCmp (pyLe rule_val user_val)
    else if operator = "in" then
      evalIn user_val rule_val
    else if operator = "contains" then
      evalContains user_val rule_val
    else .unknown

/-- Model of Python str() restricted to how the code uses it: identity on
strings, the standard spellings for None and bools.  The renderings of
numbers, lists and dicts are approximations (Python renders floats and
containers differently), used only where the result is compared against
fixed operator or keyword tables that no such rendering can ever match. -/
def pyStr (v : Value) : String :=
  match v with
  | .str s => s
  | .none => "None"
  | .bool true => "True"
  | .bool false => "False"
  | .num q => toString q
  | .list _ => "[python list]"
  | .dict _ => "[python dict]"

/-- First-occurrence lookup in a string-to-string association list. -/
def lookupStr (l : List (String × String)) (k : String) : Option String :=
  match l with
  | [] => Option.none
  | (k1, v) :: t => if k1 = k then some v else lookupStr t k

/-- Model of the Python int(string) conversion: optional surrounding
whitespace, optional sign, decimal digits. -/
def parseIntStr (s : String) : Option Int :=
  let (neg, ds) := splitSign s.trim.toList
  if !ds.isEmpty && allDigits ds then
    some (if neg then -(Int.ofNat (natOfDigits ds)) else Int.ofNat (natOfDigits ds))
  else Option.none

/-- Python indexing of the object found at a bracketed path segment, for
the shapes value.get(list_key, [])[idx] can produce: list and string
indexing with negative-index wraparound; Option.none stands for the
IndexError, KeyError or TypeError that the surrounding handler catches. -/
def indexValue : Value → Int → Option Value
  | .list xs, i =>
    let j := if i < 0 then i + xs.length else i
    if h : 0 ≤ j ∧ j.toNat < xs.length then some (xs.get ⟨j.toNat, h.2⟩) else Option.none
  | .str s, i =>
    let cs := s.toList
    let j := if i < 0 then i + cs.length else i
    if h : 0 ≤ j ∧ j.toNat < cs.length then some (.str (String.mk [cs.get ⟨j.toNat, h.2⟩])) else Option.none
  | _, _ => Option.none

/-- The dotted-path traversal loop of get_user_value (rule_evaluator.py
lines 118-135).  The surrounding try catches KeyError, IndexError,
AttributeError and TypeError (giving None), but the ValueError raised by
int() on a malformed index, or by unpacking a segment with two opening
brackets, is not caught and escapes (Except.error).  A stored None ends
the traversal as Python None. -/
def walkPath (v : Value) (keys : List String) : Except Unit (Option Value) :=
  match keys with
  | [] =>
    match v with
    | .none => Except.ok Option.none
    | v => Except.ok (some v)
  | k :: ks =>
    if k.contains '[' && k.endsWith "]" then
      match k.splitOn "[" with
      | [listKey, idxPart] =>
        match parseIntStr (idxPart.dropRight 1) with
        | Option.none => Except.error ()
        | some i =>
          match v with
          | .dict kvs =>
            match indexValue ((lookupKey kvs listKey).getD (.list [])) i with
            | some v1 => walkPath v1 ks
            | Option.none => Except.ok Option.none
          | _ => Except.ok Option.none
      | _ => Except.error ()
    else
      match v with
      | .dict kvs =>
        match (lookupKey kvs k).getD .none with
        | .none => Except.ok Option.none
        | v1 => walkPath v1 ks
      | _ => Except.ok Option.none

/-- The field-mapping step of get_user_value (lines 94-101), with the
mapping file contents as a parameter: an absent or unreadable file
(mapping = Option.none) leaves every field as itself; a loaded table is
consulted with the field itself as default; hashable non-string fields
miss the string-keyed table; unhashable fields (lists, dicts) raise an
uncaught TypeError from the dict lookup. -/
def mappedField (mapping : Option (List (String × String))) (field_path : Value) : Except Unit Value :=
  match mapping with
  | Option.none => Except.ok field_path
  | some m =>
    match field_path with
    | .str s => Except.ok (.str ((lookupStr m s).getD s))
    | .list _ => Except.error ()
    | .dict _ => Except.error ()
    | v => Except.ok v

/-- The effective-annual-income special case of get_user_value (lines
103-116): for the income_annual and annual_income field paths, a present
(non-None) income_annual is returned as is; otherwise a present
monthly_income is converted with float() and multiplied by 12, where a
TypeError or ValueError is caught and gives None; when both are absent the
lookup falls through (outer Option.none) to the normal traversal. -/
def incomeSpecial (profile : List (String × Value)) (field_path : Value) : Option (Option Value) :=
  match field_path with
  | .str s =>
    if s = "income_annual" || s = "annual_income" then
      match (lookupKey profile "income_annual").getD .none with
      | .none =>
        match (lookupKey profile "monthly_income").getD .none with
        | .none => Option.none
        | .num q => some (some (.num (q * 12)))
        | .bool b => some (some (.num (boolQ b * 12)))
        | .str t =>
          match parseFloat t with
          | some q => some (some (.num (q * 12)))
          | Option.none => some Option.none
        | _ => some Option.none
      | ia => some (some ia)
    else Option.none
  | _ => Option.none

/-- get_user_value of rule_evaluator.py (lines 79-135): empty profile or
falsy field give None; then field mapping, the income special case, and
the dotted-path traversal of the profile.  Calling .split on a truthy
non-string mapped field raises an uncaught AttributeError. -/
def get_user_value (mapping : Option (List (String × String))) (profile : List (String × Value)) (field_path : Value) : Except Unit (Option Value) :=
  if profile.isEmpty || !(truthy field_path) then Except.ok Option.none
  else
    match mappedField mapping field_path with
    | Except.error e => Except.error e
    | Except.ok mapped_field =>
      match incomeSpecial profile field_path with
      | some r => Except.ok r
      | Option.none =>
        match mapped_field with
        | .str ms => walkPath (.dict profile) (ms.splitOn ".")
        | _ => Except.error ()

/-- A clause after _normalize_clause (rule_evaluator.py lines 180-200),
keeping the keys that the evaluator later reads. -/
structure NormClause where
  field : Value
  operator : String
  value : Value
  confidence : Rat
  text_span : Value

/-- Python float() applied to a clause confidence (line 199); values that
float() rejects raise an uncaught TypeError or ValueError. -/
def pyFloat (v : Value) : Except Unit Rat :=
  match v with
  | .num q => Except.ok q
  | .bool b => Except.ok (boolQ b)
  | .str s =>
    match parseFloat s with
    | some q => Except.ok q
    | Option.none => Except.error ()
  | _ => Except.error ()

/-- The operator-spelling table of _normalize_clause (lines 184-195). -/
def normalizeOp (op : String) : String :=
  if op = "=" || op = "==" || op = "eq" || op = "equals" then "=="
  else if op = "!=" || op = "neq" || op = "not=" || op = "not equals" then "!="
  else if op = ">" || op = "gt" then ">"
  else if op = "<" || op = "lt" then "<"
  else if op = ">=" || op = "gte" then ">="
  else if op = "<=" || op = "lte" then "<="
  else op

/-- _normalize_clause (lines 180-200): the operator is the first truthy of
the operator and op keys (else the empty string), stringified, stripped,
lowercased and run through the spelling table; field defaults to the empty
string and value to None only when the key is absent; the confidence
defaults to 0.5 and goes through float(). -/
def normalize_clause (c : List (String × Value)) : Except Unit NormClause :=
  let opRaw :=
    let o1 := (lookupKey c "operator").getD .none
    if truthy o1 then o1 else
      let o2 := (lookupKey c "op").getD .none
      if truthy o2 then o2 else .str ""
  let op := normalizeOp (pyStr opRaw).trim.toLower
  let field := (lookupKey c "field").getD (.str "")
  let value := (lookupKey c "value").getD .none
  match pyFloat ((lookupKey c "confidence").getD (.num 0.5)) with
  | Except.error e => Except.error e
  | Except.ok conf =>
    Except.ok ⟨field, op, value, conf, (lookupKey c "text_span").getD (.str "")⟩

/-- Python iteration over a required/optional entry after the or-[]
defaulting of _load_clauses (lines 203-204): lists iterate their elements,
strings iterate one-character strings, dicts iterate their keys, and the
remaining truthy values (numbers, True) raise an uncaught TypeError. -/
def iterToValues : Value → Except Unit (List Value)
  | .list xs => Except.ok xs
  | .str s => Except.ok (s.toList.map (fun c => .str (String.mk [c])))
  | .dict kvs => Except.ok (kvs.map (fun kv => .str kv.1))
  | _ => Except.error ()

/-- The isinstance(c, dict) filter of the comprehensions in _load_clauses
(lines 205-206). -/
def keepDicts (vs : List Value) : List (List (String × Value)) :=
  vs.filterMap (fun v => match v with | .dict d => some d | _ => Option.none)

/-- The `x or []` defaulting applied to the required and optional entries. -/
def orEmptyList (v : Value) : Value := if truthy v then v else .list []

/-- _load_clauses (lines 202-207): read the required and optional entries,
default falsy ones to empty lists, keep the dict elements and normalize
each of them. -/
def load_clauses (es : List (String × Value)) : Except Unit (List NormClause × List NormClause) :=
  let reqsV := orEmptyList ((lookupKey es "required").getD .none)
  let optsV := orEmptyList ((lookupKey es "optional").getD .none)
  match iterToValues reqsV with
  | .error e => .error e
  | .ok reqItems =>
    match (keepDicts reqItems).mapM normalize_clause with
    | .error e => .error e
    | .ok reqC =>
      match iterToValues optsV with
      | .error e => .error e
      | .ok optItems =>
        match (keepDicts optItems).mapM normalize_clause with
        | .error e => .error e
        | .ok optC => .ok (reqC, optC)

/-- The per-clause record that evaluate_rule builds (lines 232-242). -/
structure ClauseResult where
  scope : String
  field : Value
  profile_field : Option Value
  operator : String
  value : Value
  user_value : Option Value
  status : Status
  text_span : Value
  confidence : Rat

/-- evaluate_rule of evaluate_scheme_rules (lines 210-244): a normalized
== becomes = again; a truthy field is looked up in the profile (possibly
raising); the status is unknown when the user value is None and otherwise
comes from eval_operator. -/
def evaluate_rule (mapping : Option (List (String × String))) (profile : List (String × Value)) (rule : NormClause) (scope : String) : Except Unit (ClauseResult × Status) :=
  let operator := if rule.operator = "==" then "=" else rule.operator
  match (if truthy rule.field then (get_user_value mapping profile rule.field).map (fun uv => (uv, some rule.field)) else Except.ok (Option.none, Option.none)) with
  | .error e => .error e
  | .ok (user_value, profile_attr) =>
    let status :=
      match user_value with
      | some uv => eval_operator operator uv rule.value
      | Option.none => Status.unknown
    .ok (⟨scope, rule.field, profile_attr, operator, rule.value, user_value, status, rule.text_span, rule.confidence⟩, status)

/-- Number of evaluated clauses with a given status. -/
def countStatus (st : Status) (l : List (ClauseResult × Status)) : Nat :=
  (l.filter (fun p => p.2 == st)).length

/-- The per-scope block of the result dict of evaluate_scheme_rules. -/
structure ScopeResult where
  score : Rat
  total : Nat
  matched : Nat
  unmet : Nat
  unknown : Nat
  clauses : List ClauseResult

/-- The result dict of evaluate_scheme_rules (lines 153-174). -/
structure RuleResult where
  R : Rat
  required : ScopeResult
  optional : ScopeResult
  matched_clauses : List ClauseResult
  unmet_clauses : List ClauseResult
  unknown_clauses : List ClauseResult

/-- The initial per-scope block (score 0, empty counters). -/
def emptyScope : ScopeResult := ⟨0, 0, 0, 0, 0, []⟩

/-- The initial result dict, also returned unchanged on falsy inputs. -/
def emptyResult : RuleResult := ⟨0, emptyScope, emptyScope, [], [], []⟩

/-- calculate_score of evaluate_scheme_rules (lines 292-298): vacuous 1.0
for an empty scope, else (matched + 0.5 * unknown) / total. -/
def calculate_score (total matched unknown : Nat) : Rat :=
  if total = 0 then 1 else ((matched : Rat) + 0.5 * (unknown : Rat)) / (total : Rat)

/-- Assembly of the result dict from the per-rule evaluations (lines
260-314): totals and counters per scope, the clause records in evaluation
order (required before optional for the three category lists), per-scope
scores, and the weighted overall R with weights 0.8 and 0.2 present only
for nonempty scopes, R staying 0.0 when both weights are absent. -/
def assembleResult (reqEvals optEvals : List (ClauseResult × Status)) : RuleResult :=
  let evals := reqEvals ++ optEvals
  let reqTotal := reqEvals.length
  let optTotal := optEvals.length
  let reqMatched := countStatus .matched reqEvals
  let reqUnknown := countStatus .unknown reqEvals
  let optMatched := countStatus .matched optEvals
  let optUnknown := countStatus .unknown optEvals
  let reqScore := calculate_score reqTotal reqMatched reqUnknown
  let optScore := calculate_score optTotal optMatched optUnknown
  let required_weight : Rat := if reqTotal > 0 then 0.8 else 0
  let optional_weight : Rat := if optTotal > 0 then 0.2 else 0
  let total_weight := required_weight + optional_weight
  let R := if total_weight > 0 then (required_weight * reqScore + optional_weight * optScore) / total_weight else 0
  ⟨R,
   ⟨reqScore, reqTotal, reqMatched, countStatus .unmet reqEvals, reqUnknown, reqEvals.map Prod.fst⟩,
   ⟨optScore, optTotal, optMatched, countStatus .unmet optEvals, optUnknown, optEvals.map Prod.fst⟩,
   (evals.filter (fun p => p.2 == Status.matched)).map Prod.fst,
   (evals.filter (fun p => p.2 == Status.unmet)).map Prod.fst,
   (evals.filter (fun p => p.2 == Status.unknown)).map Prod.fst⟩

/-- evaluate_scheme_rules of rule_evaluator.py (lines 138-314), with the
field-mapping file contents as an explicit parameter.  A falsy (empty)
eligibility spec or profile returns the initial zeroed result; otherwise
the clauses are loaded, normalized and evaluated (any uncaught Python
exception aborts the whole call, modelled by Except.error) and the result
dict is assembled. -/
def evaluate_scheme_rules (mapping : Option (List (String × String))) (es profile : List (String × Value)) : Except Unit RuleResult :=
  if es.isEmpty || profile.isEmpty then Except.ok emptyResult
  else
    match load_clauses es with
    | .error e => .error e
    | .ok (reqC, optC) =>
      match reqC.mapM (fun r => evaluate_rule mapping profile r "required") with
      | .error e => .error e
      | .ok reqEvals =>
        match optC.mapM (fun r => evaluate_rule mapping profile r "optional") with
        | .error e => .error e
        | .ok optEvals => .ok (assembleResult reqEvals optEvals)

/-- Bool test that a value is Python None. -/
def isNoneV : Value → Bool
  | .none => true
  | _ => false

/-- The allowed operator set of rule_engine.py (lines 11-13). -/
def ALLOWED_OPERATORS : List String :=
  ["=", "in", "contains", ">=", "<=", ">", "<", "between", "exists", "not_exists"]

/-- _map_field_name of rule_engine.py (lines 37-48): empty fields map to
the sentinel other; otherwise the stripped field is looked up exactly,
then lowercased, in the mapping table, defaulting to itself. -/
def map_field_name (field : String) (mapping : List (String × String)) : String :=
  if field = "" then "other"
  else
    let key := field.trim
    match lookupStr mapping key with
    | some v => v
    | Option.none =>
      match lookupStr mapping key.toLower with
      | some v => v
      | Option.none => key

/-- _coerce_numeric of rule_engine.py (lines 56-67): None is not numeric,
ints, floats and bools convert directly, strings are stripped and parsed
by float() with no thousands-separator handling, and float(str(v)) fails
for lists and dicts (the except branch gives None). -/
def coerce_numeric (v : Value) : Option Rat :=
  match v with
  | .none => Option.none
  | .num q => some q
  | .bool b => some (boolQ b)
  | .str s => if s.trim = "" then Option.none else parseFloat s
  | _ => Option.none

/-- The RuleEvaluation dataclass of rule_engine.py (lines 16-20); passed
is True, False or None (unknown). -/
structure RuleEvaluation where
  rule : List (String × Value)
  passed : Option Bool
  reason : String

/-- _evaluate_single_rule of rule_engine.py (lines 70-161): field mapping
with the other sentinel, the allowed-operator gate, the missing-rule-value
gate, exists and not_exists as plain is-None tests, stringified equality,
containment and membership, numeric comparisons through _coerce_numeric,
and between accepting both the two-element list and the min-max dict. -/
def evaluate_single_rule (rule : List (String × Value)) (profile : List (String × Value)) (field_mapping : List (String × String)) : RuleEvaluation :=
  let raw_field := (lookupKey rule "field").getD .none
  let operatorV := (lookupKey rule "operator").getD .none
  let value := (lookupKey rule "value").getD .none
  let fieldStr := if truthy raw_field then pyStr raw_field else ""
  let mapped := map_field_name fieldStr field_mapping
  if mapped = "other" then ⟨rule, Option.none, "field_mapped_to_other"⟩
  else
    match operatorV with
    | .str op =>
      if !(ALLOWED_OPERATORS.contains op) then ⟨rule, Option.none, "unsupported_operator"⟩
      else if (op ≠ "exists" && op ≠ "not_exists") && isNoneV value then
        ⟨rule, Option.none, "missing_rule_value"⟩
      else
        let profile_val := (lookupKey profile mapped).getD .none
        if op = "exists" then ⟨rule, some (!isNoneV profile_val), "exists_check"⟩
        else if op = "not_exists" then ⟨rule, some (isNoneV profile_val), "not_exists_check"⟩
        else if isNoneV profile_val then ⟨rule, Option.none, "missing_profile_value"⟩
        else if op = "=" then ⟨rule, some (pyStr profile_val = pyStr value), "equality_check"⟩
        else if op = "contains" then
          ⟨rule, some (charsContains (pyStr profile_val).toList (pyStr value).toList), "contains_check"⟩
        else if op = "in" then
          match value with
          | .list vs => ⟨rule, some ((vs.map pyStr).contains (pyStr profile_val)), "in_check"⟩
          | _ => ⟨rule, some (pyStr profile_val = pyStr value), "in_check"⟩
        else
          match coerce_numeric profile_val with
          | Option.none => ⟨rule, Option.none, "profile_value_not_numeric"⟩
          | some left =>
            if op = ">" || op = "<" || op = ">=" || op = "<=" then
              match coerce_numeric value with
              | Option.none => ⟨rule, Option.none, "rule_value_not_numeric"⟩
              | some right =>
                let passed :=
                  if op = ">" then decide (left > right)
                  else if op = "<" then decide (left < right)
                  else if op = ">=" then decide (left ≥ right)
                  else decide (left ≤ right)
                ⟨rule, some passed, "numeric_compare"⟩
            else if op = "between" then
              let bounds : Option Rat × Option Rat :=
                match value with
                | .list [v0, v1] => (coerce_numeric v0, coerce_numeric v1)
                | .dict kvs =>
                  (coerce_numeric ((lookupKey kvs "min").getD .none),
                   coerce_numeric ((lookupKey kvs "max").getD .none))
                | _ => (Option.none, Option.none)
              match bounds with
              | (some lo, some hi) => ⟨rule, some (decide (lo ≤ left ∧ left ≤ hi)), "between_check"⟩
              | _ => ⟨rule, Option.none, "between_value_not_numeric"⟩
            else ⟨rule, Option.none, "unsupported_rule_type"⟩
    | _ => ⟨rule, Option.none, "unsupported_operator"⟩

/-- The summary block of evaluate_scheme_eligibility (lines 245-252). -/
structure EligSummary where
  required_passed : Nat
  required_failed : Nat
  required_unknown : Nat
  optional_passed : Nat
  optional_failed : Nat
  optional_unknown : Nat

/-- The result of evaluate_scheme_eligibility (lines 241-253); is_eligible
is True, False or None. -/
structure EligResult where
  is_eligible : Option Bool
  required : List RuleEvaluation
  optional : List RuleEvaluation
  summary : EligSummary

/-- The _summarize helper (lines 221-225): counts of passed, failed and
unknown evaluations. -/
def summarize (evals : List RuleEvaluation) : Nat × Nat × Nat :=
  ((evals.filter (fun ev => ev.passed == some true)).length,
   (evals.filter (fun ev => ev.passed == some false)).length,
   (evals.filter (fun ev => ev.passed == Option.none)).length)

/-- The summary and overall-eligibility assembly of
evaluate_scheme_eligibility (rule_engine.py lines 227-253): overall
eligibility is False on any failed required rule, None when required rules
are unknown and none passed, and True otherwise - in particular True
whenever the required evaluation list is empty, whatever the optional
rules did. -/
def assembleElig (required_evals optional_evals : List RuleEvaluation) : EligResult :=
  let (req_passed, req_failed, req_unknown) := summarize required_evals
  let (opt_passed, opt_failed, opt_unknown) := summarize optional_evals
  let overall : Option Bool :=
    if req_failed > 0 then some false
    else if req_unknown > 0 && req_passed = 0 then Option.none
    else some true
  ⟨overall, required_evals, optional_evals,
   ⟨req_passed, req_failed, req_unknown, opt_passed, opt_failed, opt_unknown⟩⟩

/-- evaluate_scheme_eligibility of rule_engine.py (lines 164-253), taken
from the point where eligibility_structured is available as a dict (the
JSON-string branch is external parsing; a parse failure degrades to a dict
with empty clause lists, which a caller passes directly).  Non-dict rules
are skipped, each remaining rule is evaluated and the summary assembled. -/
def evaluate_scheme_eligibility (structured : List (String × Value)) (profile : List (String × Value)) (field_mapping : List (String × String)) : Except Unit EligResult :=
  let required_rules := orEmptyList ((lookupKey structured "required").getD .none)
  let optional_rules := orEmptyList ((lookupKey structured "optional").getD .none)
  match iterToValues required_rules with
  | .error e => .error e
  | .ok reqItems =>
    match iterToValues optional_rules with
    | .error e => .error e
    | .ok optItems =>
      .ok (assembleElig
        ((keepDicts reqItems).map (fun r => evaluate_single_rule r profile field_mapping))
        ((keepDicts optItems).map (fun r => evaluate_single_rule r profile field_mapping)))

/-- Whether a year is a Gregorian leap year. -/
def isLeapYear (y : Nat) : Bool := (y % 4 = 0 && y % 100 ≠ 0) || y % 400 = 0

/-- Length of a month in the Gregorian calendar. -/
def daysInMonth (y m : Nat) : Nat :=
  if m = 2 then (if isLeapYear y then 29 else 28)
  else if m = 4 || m = 6 || m = 9 || m = 11 then 30
  else 31

/-- Days of year y that precede the first day of month m (1-based). -/
def daysBeforeMonth (y m : Nat) : Nat :=
  (List.range (m - 1)).foldl (fun acc i => acc + daysInMonth y (i + 1)) 0

/-- Proleptic Gregorian ordinal of a date (day 1 is year 1, January 1),
the toordinal value that underlies Python datetime subtraction: the .days
of the difference of two datetimes at date d1 and date d0 equals
dateOrdinal d1 - dateOrdinal d0 for every time of day of d1 taken at or
after midnight of d1. -/
def dateOrdinal (y m d : Nat) : Nat :=
  365 * (y - 1) + (y - 1) / 4 - (y - 1) / 100 + (y - 1) / 400 + daysBeforeMonth y m + d

/-- Model of datetime.strptime(s, the Y-m-d format): exactly three
dash-separated nonempty all-digit components of at most 4, 2 and 2 digits,
a month between 1 and 12 and a day valid for that month and year; the
whole string must be consumed. -/
def parseDateStr (s : String) : Option (Nat × Nat × Nat) :=
  match s.splitOn "-" with
  | [ys, ms, ds] =>
    let yl := ys.toList
    let ml := ms.toList
    let dl := ds.toList
    if !yl.isEmpty && yl.length ≤ 4 && allDigits yl &&
       !ml.isEmpty && ml.length ≤ 2 && allDigits ml &&
       !dl.isEmpty && dl.length ≤ 2 && allDigits dl then
      let y := natOfDigits yl
      let m := natOfDigits ml
      let d := natOfDigits dl
      if 1 ≤ y && 1 ≤ m && m ≤ 12 && 1 ≤ d && d ≤ daysInMonth y m then
        some (y, m, d)
      else Option.none
    else Option.none
  | _ => Option.none

/-- compute_freshness_penalty of ranking.py (lines 43-73).  The input
Option.none stands for a missing (None) or non-string last_updated value;
a string input is rejected when empty (falsy), the text before the first T
is parsed as a date (failure gives the 0.05 penalty through the except
branch), and the age in days against the reference date decides between
0.0 (at most 365 days) and 0.1 (older). -/
def compute_freshness_penalty (last_updated : Option String) (today : Nat × Nat × Nat) : Rat :=
  match last_updated with
  | Option.none => 0.05
  | some s =>
    if s = "" then 0.05
    else
      match parseDateStr ((s.splitOn "T").headD "") with
      | Option.none => 0.05
      | some (y, m, d) =>
        let days_old : Int := (dateOrdinal today.1 today.2.1 today.2.2 : Int) - (dateOrdinal y m d : Int)
        if days_old ≤ 365 then 0 else 0.1

/-- Python regex word character (ASCII range, which covers every keyword
and input in this development). -/
def isWordChar (c : Char) : Bool := c.isAlphanum || c = '_'

/-- No word character on the left of the scan position. -/
def boundaryBefore (prev : Option Char) : Bool :=
  match prev with
  | Option.none => true
  | some c => !isWordChar c

/-- No word character right after the matched keyword. -/
def boundaryAfter (rest : List Char) : Bool :=
  match rest with
  | [] => true
  | c :: _ => !isWordChar c

/-- Scan for a word-bounded occurrence of kw in text, prev being the
character just before the scan position. -/
def containsWordAux (prev : Option Char) (text kw : List Char) : Bool :=
  (boundaryBefore prev && charsPrefix kw text && boundaryAfter (text.drop kw.length)) ||
  (match text with
   | [] => false
   | c :: t => containsWordAux (some c) t kw)

/-- Whether the text contains the keyword bounded by word boundaries on
both sides: the effect of searching for the keyword wrapped in the \x62
boundary assertions of the compiled keyword regexes of gender_utils.py. -/
def containsWord (text kw : String) : Bool :=
  containsWordAux Option.none text.toList kw.toList

/-- The female title keywords of gender_utils.py (lines 4-9), reduced to
the words the compiled alternation can actually detect: every multi-word
or optional-suffix alternative fires exactly when its leading word fires
as a word-bounded occurrence (women-only, mahila-kisan, majhi-ladki and
the possessive of women are subsumed this way), leaving six words, with
mahilas kept because the optional plural s defeats the boundary of the
bare word. -/
def FEMALE_KEYWORDS : List String := ["mahila", "mahilas", "women", "ladki", "beti", "samridhi"]

/-- The male title keywords (lines 10-12), likewise reduced. -/
def MALE_KEYWORDS : List String := ["shetkari", "male", "man"]

/-- The scan loop of detect_gender_from_required_clauses (gender_utils.py
lines 22-34): clauses with a falsy field are skipped, a truthy non-string
field raises on .lower(), a gender field with a truthy value decides by
prefix and substring tests on the stripped lowercased value (the female
tests first), and an undecided gender clause falls through to the next
clause. -/
def dgrcLoop : List Value → Except Unit (Option String)
  | [] => Except.ok Option.none
  | c :: rest =>
    match c with
    | .dict cd =>
      let field := (lookupKey cd "field").getD .none
      if !(truthy field) then dgrcLoop rest
      else
        match field with
        | .str fs =>
          if fs.toLower = "gender" then
            let val := (lookupKey cd "value").getD .none
            if !(truthy val) then dgrcLoop rest
            else
              let v := (pyStr val).trim.toLower
              if v.startsWith "f" || charsContains v.toList "female".toList || charsContains v.toList "woman".toList then
                Except.ok (some "female")
              else if v.startsWith "m" || charsContains v.toList "male".toList || charsContains v.toList "man".toList then
                Except.ok (some "male")
              else dgrcLoop rest
          else dgrcLoop rest
        | _ => Except.error ()
    | _ => Except.error ()

/-- detect_gender_from_required_clauses of gender_utils.py (lines 18-35):
falsy specs give None, the required entry defaults to an empty list only
when the key is absent, and the clause loop decides. -/
def detect_gender_from_required_clauses (es : Value) : Except Unit (Option String) :=
  if !(truthy es) then Except.ok Option.none
  else
    match es with
    | .dict d =>
      match iterToValues ((lookupKey d "required").getD (.list [])) with
      | .error e => .error e
      | .ok items => dgrcLoop items
    | _ => Except.error ()

/-- detect_gender_from_title of gender_utils.py (lines 38-46): empty
titles give no signal; the lowercased title is searched with the female
keyword set first (confidence 0.85), then the male set (0.80). -/
def detect_gender_from_title (title : String) : Option String × Rat :=
  if title = "" then (Option.none, 0)
  else
    let t := title.toLower
    if FEMALE_KEYWORDS.any (fun w => containsWord t w) then (some "female", 0.85)
    else if MALE_KEYWORDS.any (fun w => containsWord t w) then (some "male", 0.80)
    else (Option.none, 0)

/-- extract_scheme_gender of gender_utils.py (lines 49-64): a truthy
eligibility_structured is consulted first and a clause hit returns with
confidence 0.95 and provenance required_clause; then the scheme_name or
title keyword heuristic, then the raw eligibility text at confidence 0.80;
a truthy non-string title or raw text raises inside the heuristic. -/
def extract_scheme_gender (rec : List (String × Value)) : Except Unit (Option String × Rat × String) :=
  let elig := (lookupKey rec "eligibility_structured").getD .none
  match (if truthy elig then detect_gender_from_required_clauses elig else Except.ok Option.none) with
  | .error e => .error e
  | .ok gOpt =>
    match gOpt with
    | some g => Except.ok (some g, 0.95, "required_clause")
    | Option.none =>
      let titleV :=
        let t1 := (lookupKey rec "scheme_name").getD .none
        if truthy t1 then t1 else
          let t2 := (lookupKey rec "title").getD .none
          if truthy t2 then t2 else .str ""
      match titleV with
      | .str title =>
        match detect_gender_from_title title with
        | (some g, conf) => Except.ok (some g, conf, "title_heuristic")
        | (Option.none, _) =>
          let rawV :=
            let r1 := (lookupKey rec "eligibility_raw").getD (.str "")
            if truthy r1 then r1 else .str ""
          match rawV with
          | .str raw =>
            if raw ≠ "" then
              match detect_gender_from_title raw with
              | (some g, _) => Except.ok (some g, 0.80, "raw_text_heuristic")
              | (Option.none, _) => Except.ok (Option.none, 0, "none")
            else Except.ok (Option.none, 0, "none")
          | _ => Except.error ()
      | _ => Except.error ()

/-- The clause scan of _extract_scheme_gender of ranking.py (lines
211-221): only the first clause whose field equals gender is examined; a
None value or an unrecognized normalized value returns None at once; the
recognized values are exact members of the two word tuples.  A non-dict
clause raises, which the surrounding handler turns into None. -/
def rankingGenderLoop : List Value → Option String
  | [] => Option.none
  | c :: rest =>
    match c with
    | .dict cd =>
      if pyEq ((lookupKey cd "field").getD .none) (.str "gender") then
        match (lookupKey cd "value").getD .none with
        | .none => Option.none
        | val =>
          let v := (pyStr val).trim.toLower
          if v = "female" || v = "f" || v = "women" || v = "woman" || v = "mahila" then some "female"
          else if v = "male" || v = "m" || v = "man" || v = "men" then some "male"
          else Option.none
      else rankingGenderLoop rest
    | _ => Option.none

/-- _extract_scheme_gender of ranking.py (lines 206-224), the second,
parallel clause normalizer kept in the ranking module: every exception is
caught and gives None, so non-dict specs, non-list required entries and
malformed clauses all yield None. -/
def ranking_extract_scheme_gender (es : Value) : Option String :=
  if !(truthy es) then Option.none
  else
    match es with
    | .dict d =>
      match (lookupKey d "required").getD (.list []) with
      | .list items => rankingGenderLoop items
      | _ => Option.none
    | _ => Option.none

/-- A ranked scheme entry, a Python dict. -/
abbrev SchemeDict := List (String × Value)

/-- The three buckets returned by split_by_gender_buckets. -/
structure GenderBuckets where
  male : List SchemeDict
  female : List SchemeDict
  neutral : List SchemeDict

/-- The record view that split_by_gender_buckets passes to
extract_scheme_gender for each ranked scheme (ranking.py lines 240-244). -/
def recordOf (s : SchemeDict) : SchemeDict :=
  [("scheme_name", (lookupKey s "scheme_name").getD .none),
   ("eligibility_structured", (lookupKey s "eligibility_structured").getD .none),
   ("eligibility_raw", (lookupKey s "description").getD (.str ""))]

/-- The gender tag a ranked scheme receives inside the bucket loop. -/
def tagOf (s : SchemeDict) : Except Unit (Option String) :=
  match extract_scheme_gender (recordOf s) with
  | .error e => .error e
  | .ok (g, _, _) => .ok g

/-- Tag every ranked scheme in order; the first raised exception aborts
the whole call. -/
def tagAll : List SchemeDict → Except Unit (List (SchemeDict × Option String))
  | [] => .ok []
  | s :: rest =>
    match tagOf s with
    | .error e => .error e
    | .ok g =>
      match tagAll rest with
      | .error e => .error e
      | .ok t => .ok ((s, g) :: t)

/-- The bucket-filling loop of split_by_gender_buckets (lines 239-251),
separated from the tagging: since an exception anywhere aborts the whole
Python call, tagging first and then distributing is the same function.
Order within each list follows the input order. -/
def bucketLoop : List (SchemeDict × Option String) → (List SchemeDict × List SchemeDict × List SchemeDict)
  | [] => ([], [], [])
  | (s, g) :: rest =>
    let (m, f, n) := bucketLoop rest
    if g == some "female" then (m, s :: f, n)
    else if g == some "male" then (s :: m, f, n)
    else (m, f, s :: n)

/-- split_by_gender_buckets of ranking.py (lines 226-253): each ranked
scheme is tagged through extract_scheme_gender on its record view and sent
to the female, male or neutral list; the male and female buckets are the
restricted lists with the whole neutral list appended after them, and the
neutral bucket is the neutral list alone.  The profile argument of the
source only feeds a local variable that is never read, so it is omitted. -/
def split_by_gender_buckets (ranked : List SchemeDict) : Except Unit GenderBuckets :=
  match tagAll ranked with
  | .error e => .error e
  | .ok tagged =>
    let (m, f, n) := bucketLoop tagged
    .ok ⟨m ++ n, f ++ n, n⟩

/-- The bucket selection at the end of rank_schemes_for_profile
(ranking.py lines 277-282): the declared gender, when truthy, is stripped
and lowercased and selects the male or female bucket; anything else
selects the neutral bucket. -/
def select_bucket (buckets : GenderBuckets) (gender : Option String) : List SchemeDict :=
  let pg : Option String :=
    match gender with
    | some s => if s = "" then Option.none else some (s.trim.toLower)
    | Option.none => Option.none
  match pg with
  | some g =>
    if g = "male" then buckets.male
    else if g = "female" then buckets.female
    else buckets.neutral
  | Option.none => buckets.neutral

/-- The result a successful evaluate_scheme_rules call carries (used to
name concrete results in closed statements). -/
def resOf (e : Except Unit RuleResult) : RuleResult :=
  match e with
  | .ok r => r
  | .error _ => emptyResult

/-- Each evaluated clause has exactly one of the three statuses, so the
three per-status counts add up to the number of clauses. -/
theorem countStatus_partition (l : List (ClauseResult × Status)) :
    countStatus .matched l + countStatus .unmet l + countStatus .unknown l = l.length := by
  induction l with
  | nil => rfl
  | cons p t ih =>
    rcases p with ⟨c, st⟩
    cases st <;> simp [countStatus, List.filter_cons] at * <;> omega

/-- The weighted R of an assembled result satisfies the spec formula, and
collapses to the optional score when only the optional scope is nonempty. -/
theorem assembleResult_R_spec (a b : List (ClauseResult × Status)) :
    ((assembleResult a b).R =
      (if ((if (assembleResult a b).required.total > 0 then (0.8 : Rat) else 0) +
           (if (assembleResult a b).optional.total > 0 then (0.2 : Rat) else 0)) > 0 then
        ((if (assembleResult a b).required.total > 0 then (0.8 : Rat) else 0) * (assembleResult a b).required.score +
         (if (assembleResult a b).optional.total > 0 then (0.2 : Rat) else 0) * (assembleResult a b).optional.score) /
        ((if (assembleResult a b).required.total > 0 then (0.8 : Rat) else 0) +
         (if (assembleResult a b).optional.total > 0 then (0.2 : Rat) else 0))
      else 0))
    ∧ ((assembleResult a b).required.total = 0 → (assembleResult a b).optional.total > 0 →
        (assembleResult a b).R = (assembleResult a b).optional.score) := by
  have htr : (assembleResult a b).required.total = a.length := rfl
  have hto : (assembleResult a b).optional.total = b.length := rfl
  have hR : (assembleResult a b).R =
      (if ((if a.length > 0 then (0.8 : Rat) else 0) + (if b.length > 0 then (0.2 : Rat) else 0)) > 0 then
        ((if a.length > 0 then (0.8 : Rat) else 0) * (assembleResult a b).required.score +
         (if b.length > 0 then (0.2 : Rat) else 0) * (assembleResult a b).optional.score) /
        ((if a.length > 0 then (0.8 : Rat) else 0) + (if b.length > 0 then (0.2 : Rat) else 0))
      else 0) := rfl
  constructor
  · rw [htr, hto]
    exact hR
  · intro h0 h1
    rw [htr] at h0
    rw [hto] at h1
    rw [hR]
    simp only [h0, gt_iff_lt, lt_self_iff_false, if_false, if_pos h1]
    rw [if_pos (by norm_num : ((0 : Rat) + 0.2) > 0)]
    rw [zero_mul, zero_add, zero_add]
    rw [mul_div_assoc]
    field_simp

/-- C1: evaluate_scheme_rules computes R with weight 0.8 for a nonempty
required scope and 0.2 for a nonempty optional scope, as the weighted
average of the scope scores when the total weight is positive and as 0.0
when there are no clauses at all; in particular, with no required clauses
and some optional clauses, R equals the optional score exactly. -/
theorem evaluate_scheme_rules_R_weighted_formula
    (mapping : Option (List (String × String))) (es profile : List (String × Value))
    (res : RuleResult) (h : evaluate_scheme_rules mapping es profile = Except.ok res) :
    (res.R =
      (if ((if res.required.total > 0 then (0.8 : Rat) else 0) + (if res.optional.total > 0 then (0.2 : Rat) else 0)) > 0 then
        ((if res.required.total > 0 then (0.8 : Rat) else 0) * res.required.score +
         (if res.optional.total > 0 then (0.2 : Rat) else 0) * res.optional.score) /
        ((if res.required.total > 0 then (0.8 : Rat) else 0) + (if res.optional.total > 0 then (0.2 : Rat) else 0))
      else 0))
    ∧ (res.required.total = 0 → res.optional.total > 0 → res.R = res.optional.score) := by
  unfold evaluate_scheme_rules at h
  split at h
  · cases h
    refine ⟨by norm_num [emptyResult, emptyScope], ?_⟩
    intro _ h1
    exact absurd h1 (by norm_num [emptyResult, emptyScope])
  · split at h
    · cases h
    · split at h
      · cases h
      · split at h
        · cases h
        · cases h
          exact assembleResult_R_spec _ _

/-- Closed instance of the C1 theorem at a spec with no clause lists and a
nonempty profile, discharging its hypothesis by computation. -/
theorem evaluate_scheme_rules_R_weighted_formula_witness :
    (((assembleResult [] []).R =
      (if ((if (assembleResult [] []).required.total > 0 then (0.8 : Rat) else 0) +
           (if (assembleResult [] []).optional.total > 0 then (0.2 : Rat) else 0)) > 0 then
        ((if (assembleResult [] []).required.total > 0 then (0.8 : Rat) else 0) * (assembleResult [] []).required.score +
         (if (assembleResult [] []).optional.total > 0 then (0.2 : Rat) else 0) * (assembleResult [] []).optional.score) /
        ((if (assembleResult [] []).required.total > 0 then (0.8 : Rat) else 0) +
         (if (assembleResult [] []).optional.total > 0 then (0.2 : Rat) else 0))
      else 0))
    ∧ ((assembleResult [] []).required.total = 0 → (assembleResult [] []).optional.total > 0 →
        (assembleResult [] []).R = (assembleResult [] []).optional.score)) :=
  evaluate_scheme_rules_R_weighted_formula Option.none
    [("notes", Value.str "x")] [("age", Value.num 1)] (assembleResult [] []) rfl

/-- The three category lists of an assembled result split the evaluated
clauses by status, so their lengths add up to the clause count. -/
theorem assembleResult_counting (a b : List (ClauseResult × Status)) :
    (assembleResult a b).required.matched + (assembleResult a b).required.unmet +
      (assembleResult a b).required.unknown = (assembleResult a b).required.total
    ∧ (assembleResult a b).optional.matched + (assembleResult a b).optional.unmet +
      (assembleResult a b).optional.unknown = (assembleResult a b).optional.total
    ∧ (assembleResult a b).matched_clauses.length + (assembleResult a b).unmet_clauses.length +
      (assembleResult a b).unknown_clauses.length =
      (assembleResult a b).required.total + (assembleResult a b).optional.total := by
  refine ⟨?_, ?_, ?_⟩
  · show countStatus .matched a + countStatus .unmet a + countStatus .unknown a = a.length
    exact countStatus_partition a
  · show countStatus .matched b + countStatus .unmet b + countStatus .unknown b = b.length
    exact countStatus_partition b
  · have e1 : (assembleResult a b).matched_clauses =
        ((a ++ b).filter (fun p => p.2 == Status.matched)).map Prod.fst := rfl
    have e2 : (assembleResult a b).unmet_clauses =
        ((a ++ b).filter (fun p => p.2 == Status.unmet)).map Prod.fst := rfl
    have e3 : (assembleResult a b).unknown_clauses =
        ((a ++ b).filter (fun p => p.2 == Status.unknown)).map Prod.fst := rfl
    have et : (assembleResult a b).required.total = a.length := rfl
    have eo : (assembleResult a b).optional.total = b.length := rfl
    rw [e1, e2, e3, et, eo]
    simp only [List.length_map]
    have h3 := countStatus_partition (a ++ b)
    simp only [countStatus, List.length_append] at h3
    simpa using h3

/-- C10: for a nonempty eligibility spec and nonempty profile, a returned
result of evaluate_scheme_rules satisfies the counting invariant: in each
scope matched + unmet + unknown equals total, and the three category lists
together hold exactly required.total + optional.total clause records (the
lengths of the mapped filters add up because each clause has exactly one
status). -/
theorem evaluate_scheme_rules_counting_invariant
    (mapping : Option (List (String × String))) (es profile : List (String × Value))
    (res : RuleResult) (hes : es ≠ []) (hp : profile ≠ [])
    (h : evaluate_scheme_rules mapping es profile = Except.ok res) :
    res.required.matched + res.required.unmet + res.required.unknown = res.required.total
    ∧ res.optional.matched + res.optional.unmet + res.optional.unknown = res.optional.total
    ∧ res.matched_clauses.length + res.unmet_clauses.length + res.unknown_clauses.length =
      res.required.total + res.optional.total := by
  unfold evaluate_scheme_rules at h
  split at h
  · cases h
    exact ⟨rfl, rfl, rfl⟩
  · split at h
    · cases h
    · split at h
      · cases h
      · split at h
        · cases h
        · cases h
          exact assembleResult_counting _ _

/-- Closed instance of the C10 theorem at a one-clause spec and a
one-entry profile, discharging its hypotheses by computation. -/
theorem evaluate_scheme_rules_counting_invariant_witness :
    ((resOf (evaluate_scheme_rules Option.none
        [("required", Value.list [Value.dict [("field", Value.str "state"), ("operator", Value.str "="), ("value", Value.str "Karnataka")]])]
        [("state", Value.str "Karnataka")])).required.matched +
     (resOf (evaluate_scheme_rules Option.none
        [("required", Value.list [Value.dict [("field", Value.str "state"), ("operator", Value.str "="), ("value", Value.str "Karnataka")]])]
        [("state", Value.str "Karnataka")])).required.unmet +
     (resOf (evaluate_scheme_rules Option.none
        [("required", Value.list [Value.dict [("field", Value.str "state"), ("operator", Value.str "="), ("value", Value.str "Karnataka")]])]
        [("state", Value.str "Karnataka")])).required.unknown =
     (resOf (evaluate_scheme_rules Option.none
        [("required", Value.list [Value.dict [("field", Value.str "state"), ("operator", Value.str "="), ("value", Value.str "Karnataka")]])]
        [("state", Value.str "Karnataka")])).required.total)
    ∧ ((resOf (evaluate_scheme_rules Option.none
        [("required", Value.list [Value.dict [("field", Value.str "state"), ("operator", Value.str "="), ("value", Value.str "Karnataka")]])]
        [("state", Value.str "Karnataka")])).optional.matched +
     (resOf (evaluate_scheme_rules Option.none
        [("required", Value.list [Value.dict [("field", Value.str "state"), ("operator", Value.str "="), ("value", Value.str "Karnataka")]])]
        [("state", Value.str "Karnataka")])).optional.unmet +
     (resOf (evaluate_scheme_rules Option.none
        [("required", Value.list [Value.dict [("field", Value.str "state"), ("operator", Value.str "="), ("value", Value.str "Karnataka")]])]
        [("state", Value.str "Karnataka")])).optional.unknown =
     (resOf (evaluate_scheme_rules Option.none
        [("required", Value.list [Value.dict [("field", Value.str "state"), ("operator", Value.str "="), ("value", Value.str "Karnataka")]])]
        [("state", Value.str "Karnataka")])).optional.total)
    ∧ ((resOf (evaluate_scheme_rules Option.none
        [("required", Value.list [Value.dict [("field", Value.str "state"), ("operator", Value.str "="), ("value", Value.str "Karnataka")]])]
        [("state", Value.str "Karnataka")])).matched_clauses.length +
     (resOf (evaluate_scheme_rules Option.none
        [("required", Value.list [Value.dict [("field", Value.str "state"), ("operator", Value.str "="), ("value", Value.str "Karnataka")]])]
        [("state", Value.str "Karnataka")])).unmet_clauses.length +
     (resOf (evaluate_scheme_rules Option.none
        [("required", Value.list [Value.dict [("field", Value.str "state"), ("operator", Value.str "="), ("value", Value.str "Karnataka")]])]
        [("state", Value.str "Karnataka")])).unknown_clauses.length =
     (resOf (evaluate_scheme_rules Option.none
        [("required", Value.list [Value.dict [("field", Value.str "state"), ("operator", Value.str "="), ("value", Value.str "Karnataka")]])]
        [("state", Value.str "Karnataka")])).required.total +
     (resOf (evaluate_scheme_rules Option.none
        [("required", Value.list [Value.dict [("field", Value.str "state"), ("operator", Value.str "="), ("value", Value.str "Karnataka")]])]
        [("state", Value.str "Karnataka")])).optional.total) :=
  evaluate_scheme_rules_counting_invariant Option.none
    [("required", Value.list [Value.dict [("field", Value.str "state"), ("operator", Value.str "="), ("value", Value.str "Karnataka")]])]
    [("state", Value.str "Karnataka")]
    (resOf (evaluate_scheme_rules Option.none
        [("required", Value.list [Value.dict [("field", Value.str "state"), ("operator", Value.str "="), ("value", Value.str "Karnataka")]])]
        [("state", Value.str "Karnataka")]))
    (List.cons_ne_nil _ _) (List.cons_ne_nil _ _) (by with_unfolding_all rfl)

/-- C2 counterexample: the exists claim fails on the code.  A None profile
value gives unknown, not unmet, because eval_operator returns unknown for
None before reaching the exists branch; the membership test is
case-sensitive, so the string FALSE is matched although the claim calls
for unmet under case-insensitive comparison; not_exists is not an
eval_operator operator and falls to the unknown default instead of
negating exists; and in the parallel engine an exists clause on a False
profile value passes (True), against the claimed unmet. -/
theorem eval_operator_exists_claim_counterexample :
    eval_operator "exists" Value.none (Value.str "x") = Status.unknown
    ∧ eval_operator "exists" (Value.str "FALSE") (Value.str "x") = Status.matched
    ∧ eval_operator "not_exists" (Value.str "yes") (Value.str "x") = Status.unknown
    ∧ (evaluate_single_rule [("field", Value.str "farmer"), ("operator", Value.str "exists")]
        [("farmer", Value.bool false)] []).passed = some true := by
  refine ⟨rfl, ?_, ?_, ?_⟩ <;> with_unfolding_all rfl

/-- C2 amended: in eval_operator a None profile value is unknown for every
operator, exists included; for any other value, exists is matched exactly
when the raw value is not Python-equal to False, the empty string, the
lowercase strings no and false, or the number 0 (the comparison is
case-sensitive); not_exists is unrecognized and always unknown.  In the
parallel rule_engine, exists tests only that the profile value is not
None and not_exists is its negation. -/
theorem eval_operator_exists_amended (u r pv : Value) :
    eval_operator "exists" u r =
      (match u with
       | .none => Status.unknown
       | u => if inExistsTuple u then Status.unmet else Status.matched)
    ∧ eval_operator "not_exists" u r = Status.unknown
    ∧ (evaluate_single_rule [("field", Value.str "farmer"), ("operator", Value.str "exists")]
        [("farmer", pv)] []).passed = some (!isNoneV pv)
    ∧ (evaluate_single_rule [("field", Value.str "farmer"), ("operator", Value.str "not_exists")]
        [("farmer", pv)] []).passed = some (isNoneV pv) := by
  refine ⟨?_, ?_, ?_, ?_⟩
  · cases u <;> rfl
  · cases u <;> rfl
  · cases pv <;> with_unfolding_all rfl
  · cases pv <;> with_unfolding_all rfl

/-- C4 counterexample: a numeric-operator clause whose operands both fail
float coercion does not evaluate to unknown; the two strings are compared
lexicographically, so abc is less than xyz and the clause is matched (the
repository test suite even relies on this, matching an established-after
date clause by string order). -/
theorem eval_operator_numeric_claim_counterexample :
    eval_operator "<" (Value.str "abc") (Value.str "xyz") = Status.matched
    ∧ eval_operator ">=" (Value.str "2020-01-15") (Value.str "2018-01-01") = Status.matched := by
  constructor <;> with_unfolding_all rfl

/-- C4 amended: for the four numeric operators, eval_operator coerces both
operands through safe_convert (floats with thousands separators stripped;
strings failing the coercion stay strings, lowercased).  Two numeric
operands compare numerically; a numeric operand against a failed string or
a None rule value raises a TypeError and gives unknown; two failed strings
compare lexicographically by code point and give matched or unmet.  The
parallel rule_engine returns unknown whenever either side fails
_coerce_numeric, which strips no thousands separators, so a comma-grouped
number fails there. -/
theorem eval_operator_numeric_amended (a b : Rat) (u r : String)
    (hu : parseFloat (u.replace "," "") = Option.none)
    (hr : parseFloat (r.replace "," "") = Option.none) :
    (eval_operator "<" (Value.num a) (Value.num b) = (if a < b then Status.matched else Status.unmet))
    ∧ (eval_operator "<=" (Value.num a) (Value.num b) = (if a ≤ b then Status.matched else Status.unmet))
    ∧ (eval_operator ">" (Value.num a) (Value.num b) = (if b < a then Status.matched else Status.unmet))
    ∧ (eval_operator ">=" (Value.num a) (Value.num b) = (if b ≤ a then Status.matched else Status.unmet))
    ∧ (eval_operator "<" (Value.str u) (Value.num b) = Status.unknown)
    ∧ (eval_operator "<" (Value.num a) (Value.str r) = Status.unknown)
    ∧ (eval_operator "<" (Value.num a) Value.none = Status.unknown)
    ∧ (eval_operator "<" (Value.str u) (Value.str r) =
        (if charsLt u.toLower.toList r.toLower.toList then Status.matched else Status.unmet))
    ∧ coerce_numeric (Value.str "1,000") = Option.none := by
  refine ⟨?_, ?_, ?_, ?_, ?_, ?_, ?_, ?_, ?_⟩
  · show statusOfCmp (pyLt (Value.num a) (Value.num b)) = _
    simp only [pyLt, statusOfCmp]
    by_cases h : a < b <;> simp [h]
  · show statusOfCmp (pyLe (Value.num a) (Value.num b)) = _
    simp only [pyLe, statusOfCmp]
    by_cases h : a ≤ b <;> simp [h]
  · show statusOfCmp (pyLt (Value.num b) (Value.num a)) = _
    simp only [pyLt, statusOfCmp]
    by_cases h : b < a <;> simp [h]
  · show statusOfCmp (pyLe (Value.num b) (Value.num a)) = _
    simp only [pyLe, statusOfCmp]
    by_cases h : b ≤ a <;> simp [h]
  · show statusOfCmp (pyLt (safe_convert (Value.str u)) (Value.num b)) = _
    simp only [safe_convert, hu]
    rfl
  · show statusOfCmp (pyLt (Value.num a) (safe_convert (Value.str r))) = _
    simp only [safe_convert, hr]
    rfl
  · rfl
  · show statusOfCmp (pyLt (safe_convert (Value.str u)) (safe_convert (Value.str r))) = _
    simp only [safe_convert, hu, hr]
    simp only [pyLt]
    cases hcl : charsLt u.toLower.data r.toLower.data <;> simp [hcl, statusOfCmp]
  · with_unfolding_all rfl

/-- Closed instance of the C4 amended theorem at concrete operands,
discharging both coercion-failure hypotheses by computation. -/
theorem eval_operator_numeric_amended_witness :
    (eval_operator "<" (Value.num 1) (Value.num 2) = (if (1 : Rat) < 2 then Status.matched else Status.unmet))
    ∧ (eval_operator "<=" (Value.num 1) (Value.num 2) = (if (1 : Rat) ≤ 2 then Status.matched else Status.unmet))
    ∧ (eval_operator ">" (Value.num 1) (Value.num 2) = (if (2 : Rat) < 1 then Status.matched else Status.unmet))
    ∧ (eval_operator ">=" (Value.num 1) (Value.num 2) = (if (2 : Rat) ≤ 1 then Status.matched else Status.unmet))
    ∧ (eval_operator "<" (Value.str "abc") (Value.num 2) = Status.unknown)
    ∧ (eval_operator "<" (Value.num 1) (Value.str "xyz") = Status.unknown)
    ∧ (eval_operator "<" (Value.num 1) Value.none = Status.unknown)
    ∧ (eval_operator "<" (Value.str "abc") (Value.str "xyz") =
        (if charsLt "abc".toLower.toList "xyz".toLower.toList then Status.matched else Status.unmet))
    ∧ coerce_numeric (Value.str "1,000") = Option.none :=
  eval_operator_numeric_amended 1 2 "abc" "xyz" (by with_unfolding_all rfl) (by with_unfolding_all rfl)

/-- The profile of the end-to-end example of the spec: a Karnataka
resident aged 45 with an annual income of 120000. -/
def c3profile : List (String × Value) :=
  [("state", Value.str "Karnataka"), ("age", Value.num 45), ("income_annual", Value.num 120000)]

/-- The two required clauses of the end-to-end example with the between
value given as the two-element list. -/
def c3specList : List (String × Value) :=
  [("required", Value.list
    [Value.dict [("field", Value.str "state"), ("operator", Value.str "="), ("value", Value.str "Karnataka")],
     Value.dict [("field", Value.str "age"), ("operator", Value.str "between"), ("value", Value.list [Value.num 18, Value.num 60])]])]

/-- The same two required clauses with the between value given as the
min-max dict that eval_operator accepts. -/
def c3specDict : List (String × Value) :=
  [("required", Value.list
    [Value.dict [("field", Value.str "state"), ("operator", Value.str "="), ("value", Value.str "Karnataka")],
     Value.dict [("field", Value.str "age"), ("operator", Value.str "between"), ("value", Value.dict [("min", Value.num 18), ("max", Value.num 60)])]])]

/-- C3 counterexample: the between claim fails on evaluate_scheme_rules.
With the between value given as the list form the clause is unknown (the
evaluator accepts only the dict form), so the end-to-end example gives
matched 1, unknown 1 and R three quarters instead of the claimed matched 2
and R 1.0. -/
theorem between_list_end_to_end_counterexample :
    (evaluate_scheme_rules Option.none c3specList c3profile).map
      (fun r => (r.required.total, r.required.matched, r.required.unknown, r.R))
      = Except.ok (2, 1, 1, 3/4)
    ∧ ((3 : Rat)/4) ≠ 1 := by
  constructor
  · with_unfolding_all rfl
  · norm_num

/-- C3 amended: in eval_operator the between value must be the min-max
dict: every list-shaped value gives unknown, and a dict with numeric
bounds gives the inclusive range test; consequently the end-to-end example
matches both clauses with R 1.0 only in the dict form.  The parallel
rule_engine accepts both the list and the dict form of the same bounds. -/
theorem between_amended (u : Value) (xs : List Value) (q lo hi : Rat) :
    eval_operator "between" u (Value.list xs) = Status.unknown
    ∧ eval_operator "between" (Value.num q) (Value.dict [("min", Value.num lo), ("max", Value.num hi)]) =
        (if lo ≤ q ∧ q ≤ hi then Status.matched else Status.unmet)
    ∧ (evaluate_scheme_rules Option.none c3specDict c3profile).map
        (fun r => (r.required.total, r.required.matched, r.R)) = Except.ok (2, 2, 1)
    ∧ (evaluate_single_rule
        [("field", Value.str "age"), ("operator", Value.str "between"), ("value", Value.list [Value.num 18, Value.num 60])]
        [("age", Value.num 45)] []).passed = some true
    ∧ (evaluate_single_rule
        [("field", Value.str "age"), ("operator", Value.str "between"), ("value", Value.dict [("min", Value.num 18), ("max", Value.num 60)])]
        [("age", Value.num 45)] []).passed = some true := by
  refine ⟨?_, ?_, ?_, ?_, ?_⟩
  · cases u <;> rfl
  · have e : eval_operator "between" (Value.num q) (Value.dict [("min", Value.num lo), ("max", Value.num hi)]) =
        evalBetween (Value.num q) (Value.dict [("min", Value.num lo), ("max", Value.num hi)]) := rfl
    rw [e]
    simp [evalBetween, lookupKey, safe_convert]
  · with_unfolding_all rfl
  · with_unfolding_all rfl
  · with_unfolding_all rfl

/-- The single required state clause of the second end-to-end example. -/
def c5spec : List (String × Value) :=
  [("required", Value.list
    [Value.dict [("field", Value.str "state"), ("operator", Value.str "="), ("value", Value.str "Karnataka")]])]

/-- A profile with every UserProfile attribute present but None, the
model_dump of a default-constructed profile (documents and extra_flags
default to empty dicts). -/
def c5profileAllNone : List (String × Value) :=
  [("user_id", Value.none), ("state", Value.none), ("district", Value.none),
   ("pincode", Value.none), ("age", Value.none), ("gender", Value.none),
   ("category", Value.none), ("income_annual", Value.none),
   ("monthly_income", Value.none), ("occupation", Value.none),
   ("education_level", Value.none), ("farmer", Value.none),
   ("land_area", Value.none), ("land_type", Value.none),
   ("disability", Value.none), ("business_type", Value.none),
   ("enterprise_registered", Value.none), ("documents", Value.dict []),
   ("extra_flags", Value.dict [])]

/-- C5 counterexample: against the literally empty profile dict the claim
fails, because a falsy profile short-circuits evaluate_scheme_rules to the
zeroed initial result: no clause is evaluated at all, the required score
stays 0 (not the claimed 0.5) and R stays 0 (not the claimed 0.5). -/
theorem empty_profile_short_circuit_counterexample :
    (evaluate_scheme_rules Option.none c5spec ([] : List (String × Value))).map
      (fun r => (r.R, r.required.score, r.required.total, r.required.clauses.length))
      = Except.ok (0, 0, 0, 0)
    ∧ ((0 : Rat) ≠ 1/2) := by
  constructor
  · with_unfolding_all rfl
  · norm_num

/-- C5 amended: the claimed behaviour holds for the profile that actually
reaches the evaluator in the pipeline, the model dump with every attribute
present but None: the state clause is unknown, the required score is 0.5
by the (matched + 0.5 unknown) / total formula, and R is 0.5; a literally
empty profile dict instead short-circuits to the zeroed result. -/
theorem empty_profile_amended :
    (evaluate_scheme_rules Option.none c5spec c5profileAllNone).map
      (fun r => (r.R, r.required.score, r.required.clauses.map (fun c => c.status)))
      = Except.ok (1/2, 1/2, [Status.unknown]) := by
  with_unfolding_all rfl

/-- C6: the freshness penalty is a three-valued step function: 0.05 for a
missing, non-string, empty or unparsable last_updated value; for a parsed
date, 0.0 exactly when the age in days is at most 365 and 0.1 otherwise;
no other output is possible.  The concrete conjuncts check the claimed
boundary: a date exactly 365 days old gives 0.0 and one 366 days old gives
0.1. -/
theorem compute_freshness_penalty_three_valued
    (lu : Option String) (today : Nat × Nat × Nat) :
    (compute_freshness_penalty lu today = 0.05 ∨ compute_freshness_penalty lu today = 0
      ∨ compute_freshness_penalty lu today = 0.1)
    ∧ (∀ s y m d, lu = some s → s ≠ "" →
        parseDateStr ((s.splitOn "T").headD "") = some (y, m, d) →
        compute_freshness_penalty lu today =
          (if ((dateOrdinal today.1 today.2.1 today.2.2 : Int) - (dateOrdinal y m d : Int)) ≤ 365
           then 0 else 0.1))
    ∧ (∀ s, lu = some s → s ≠ "" → parseDateStr ((s.splitOn "T").headD "") = Option.none →
        compute_freshness_penalty lu today = 0.05)
    ∧ (lu = Option.none → compute_freshness_penalty lu today = 0.05)
    ∧ (lu = some "" → compute_freshness_penalty lu today = 0.05)
    ∧ compute_freshness_penalty (some "2025-10-12") (2026, 10, 12) = 0
    ∧ compute_freshness_penalty (some "2025-10-11") (2026, 10, 12) = 0.1 := by
  refine ⟨?_, ?_, ?_, ?_, ?_, ?_, ?_⟩
  · unfold compute_freshness_penalty
    rcases lu with _ | s
    · exact Or.inl rfl
    · by_cases hs : s = ""
      · simp [hs]
      · simp only [hs, if_false]
        rcases hp : parseDateStr ((s.splitOn "T").headD "") with _ | ⟨y, m, d⟩ <;>
          simp only [hp]
        · trivial
        · split
          · exact Or.inr (Or.inl rfl)
          · exact Or.inr (Or.inr rfl)
  · intro s y m d hlu hs hp
    subst hlu
    unfold compute_freshness_penalty
    simp only [hs, if_false, hp]
  · intro s hlu hs hp
    subst hlu
    unfold compute_freshness_penalty
    simp only [hs, if_false, hp]
  · intro hlu
    subst hlu
    rfl
  · intro hlu
    subst hlu
    rfl
  · with_unfolding_all rfl
  · with_unfolding_all rfl

/-- Closed instance of the C6 theorem at a timestamped date string,
discharging the parse hypothesis by computation. -/
theorem compute_freshness_penalty_three_valued_witness :
    compute_freshness_penalty (some "2025-06-01T12:30:00") (2026, 10, 12) =
      (if ((dateOrdinal 2026 10 12 : Int) - (dateOrdinal 2025 6 1 : Int)) ≤ 365 then 0 else 0.1) :=
  (compute_freshness_penalty_three_valued (some "2025-06-01T12:30:00") (2026, 10, 12)).2.1
    "2025-06-01T12:30:00" 2025 6 1 rfl (by decide) (by with_unfolding_all rfl)

/-- The result a successful evaluate_scheme_eligibility call carries. -/
def eligOf (e : Except Unit EligResult) : EligResult :=
  match e with
  | .ok r => r
  | .error _ => assembleElig [] []

/-- An assembled eligibility result with no required evaluations is
eligible: both required counters are zero, so neither overriding branch
fires. -/
theorem assembleElig_empty_required (re oe : List RuleEvaluation) (h : re = []) :
    (assembleElig re oe).is_eligible = some true := by
  subst h
  rfl

/-- A spec with a failing optional clause and an age-10 profile, for the
non-equivalence demonstration. -/
def c9optSpec : List (String × Value) :=
  [("optional", Value.list [Value.dict [("field", Value.str "age"), ("operator", Value.str ">="), ("value", Value.num 100)]])]

/-- A spec with no clause lists at all. -/
def c9bareSpec : List (String × Value) := [("notes", Value.str "x")]

/-- C9: the parallel engine declares is_eligible True for every profile
whenever the scheme has zero required evaluations, regardless of the
optional results; it is therefore not equivalent to evaluate_scheme_rules,
which on the same inputs reports R = 0 both for a scheme whose only
optional clause fails and for a scheme with no clauses at all (the
zero-total-weight rule). -/
theorem evaluate_scheme_eligibility_vacuous_required
    (structured profile : List (String × Value)) (fm : List (String × String)) (res : EligResult)
    (h : evaluate_scheme_eligibility structured profile fm = Except.ok res)
    (hreq : res.required = []) :
    res.is_eligible = some true
    ∧ (evaluate_scheme_eligibility c9optSpec [("age", Value.num 10)] []).map
        (fun r => (r.is_eligible, r.summary.optional_failed)) = Except.ok (some true, 1)
    ∧ (evaluate_scheme_rules Option.none c9optSpec [("age", Value.num 10)]).map (fun r => r.R) = Except.ok 0
    ∧ (evaluate_scheme_eligibility c9bareSpec [("age", Value.num 10)] []).map
        (fun r => r.is_eligible) = Except.ok (some true)
    ∧ (evaluate_scheme_rules Option.none c9bareSpec [("age", Value.num 10)]).map (fun r => r.R) = Except.ok 0 := by
  refine ⟨?_, by with_unfolding_all rfl, by with_unfolding_all rfl, by with_unfolding_all rfl, by with_unfolding_all rfl⟩
  unfold evaluate_scheme_eligibility at h
  dsimp only at h
  split at h
  · cases h
  · split at h
    · cases h
    · cases h
      exact assembleElig_empty_required _ _ hreq

/-- Closed instance of the C9 theorem at the bare spec, discharging both
hypotheses by computation. -/
theorem evaluate_scheme_eligibility_vacuous_required_witness :
    (eligOf (evaluate_scheme_eligibility c9bareSpec [("age", Value.num 10)] [])).is_eligible = some true
    ∧ (evaluate_scheme_eligibility c9optSpec [("age", Value.num 10)] []).map
        (fun r => (r.is_eligible, r.summary.optional_failed)) = Except.ok (some true, 1)
    ∧ (evaluate_scheme_rules Option.none c9optSpec [("age", Value.num 10)]).map (fun r => r.R) = Except.ok 0
    ∧ (evaluate_scheme_eligibility c9bareSpec [("age", Value.num 10)] []).map
        (fun r => r.is_eligible) = Except.ok (some true)
    ∧ (evaluate_scheme_rules Option.none c9bareSpec [("age", Value.num 10)]).map (fun r => r.R) = Except.ok 0 :=
  evaluate_scheme_eligibility_vacuous_required c9bareSpec [("age", Value.num 10)] []
    (eligOf (evaluate_scheme_eligibility c9bareSpec [("age", Value.num 10)] []))
    (by with_unfolding_all rfl) (by with_unfolding_all rfl)

/-- An eligibility spec whose required gender clause carries the value
mahila. -/
def mahilaSpec : Value :=
  Value.dict [("required", Value.list
    [Value.dict [("field", Value.str "gender"), ("operator", Value.str "="), ("value", Value.str "mahila")]])]

set_option maxHeartbeats 2000000 in
/-- C7: at the clause value mahila the shipped normalizer returns male
with confidence 0.95 and provenance required_clause, because the female
tests (prefix f, substrings female and woman) all miss and the word then
falls into the prefix-m male test.  The repository itself encodes the
opposite intent: the unused parallel normalizer of the ranking module maps
mahila to female by exact membership, mahila is in the female title
keyword set, and the title heuristic classifies a mahila title female. -/
theorem gender_mahila_divergence :
    extract_scheme_gender [("eligibility_structured", mahilaSpec)]
      = Except.ok (some "male", 0.95, "required_clause")
    ∧ ranking_extract_scheme_gender mahilaSpec = some "female"
    ∧ FEMALE_KEYWORDS.contains "mahila" = true
    ∧ detect_gender_from_title "Mahila Kisan Yojana" = (some "female", 0.85) := by
  refine ⟨?_, ?_, ?_, ?_⟩ <;> with_unfolding_all rfl

/-- A ranked scheme with no gender restriction and a neutral one-letter
title (minimal, so that the failing keyword scans stay small). -/
def openScheme : SchemeDict :=
  [("scheme_id", Value.str "n"), ("scheme_name", Value.str "x"),
   ("eligibility_structured", Value.dict [("required", Value.list []), ("optional", Value.list [])])]

/-- A ranked scheme restricted to men by a required gender clause (the
clause has the highest precedence, so no title is needed). -/
def maleScheme : SchemeDict :=
  [("scheme_id", Value.str "m"),
   ("eligibility_structured", Value.dict [("required", Value.list
      [Value.dict [("field", Value.str "gender"), ("operator", Value.str "="), ("value", Value.str "male")]]),
    ("optional", Value.list [])])]

/-- The scheme_id strings of a list of ranked schemes. -/
def idsOf (l : List SchemeDict) : List String :=
  l.map (fun s =>
    match lookupKey s "scheme_id" with
    | some (.str x) => x
    | _ => "")

/-- C8 counterexample: the order-preservation part of the claim fails.
For the input of a neutral scheme followed by a male-restricted scheme,
the male bucket lists the restricted scheme first and the neutral scheme
second, reversing their input order, so the bucket is not a stable
selection (not a sublist) of the input. -/
theorem bucket_order_claim_counterexample :
    (split_by_gender_buckets [openScheme, maleScheme]).map (fun b => idsOf b.male)
      = Except.ok ["m", "n"]
    ∧ idsOf [openScheme, maleScheme] = ["n", "m"]
    ∧ ¬ List.Sublist ["m", "n"] ["n", "m"] := by
  refine ⟨by with_unfolding_all rfl, by with_unfolding_all rfl, ?_⟩
  intro hsub
  have heq := List.Sublist.eq_of_length hsub rfl
  simp at heq

/-- Inversion of the tagging pass: a successful tagAll returns the input
schemes in order, each paired with its computed gender tag. -/
theorem tagAll_inversion (ranked : List SchemeDict) (tagged : List (SchemeDict × Option String))
    (h : tagAll ranked = Except.ok tagged) :
    ranked = tagged.map Prod.fst ∧ ∀ p ∈ tagged, tagOf p.1 = Except.ok p.2 := by
  induction ranked generalizing tagged with
  | nil =>
    cases h
    exact ⟨rfl, by intro p hp; cases hp⟩
  | cons s rest ih =>
    unfold tagAll at h
    cases hg : tagOf s with
    | error e => rw [hg] at h; cases h
    | ok g =>
      rw [hg] at h
      cases ht : tagAll rest with
      | error e => rw [ht] at h; cases h
      | ok t =>
        rw [ht] at h
        cases h
        obtain ⟨h1, h2⟩ := ih t ht
        refine ⟨by simp [h1], ?_⟩
        intro p hp
        rcases List.mem_cons.mp hp with hp | hp
        · subst hp
          exact hg
        · exact h2 p hp

/-- The bucket loop splits the tagged list into the three status filters,
each in input order. -/
theorem bucketLoop_eq_filters (tagged : List (SchemeDict × Option String)) :
    bucketLoop tagged =
      ((tagged.filter (fun p => p.2 == some "male")).map Prod.fst,
       (tagged.filter (fun p => p.2 == some "female")).map Prod.fst,
       (tagged.filter (fun p => !(p.2 == some "female") && !(p.2 == some "male"))).map Prod.fst) := by
  induction tagged with
  | nil => rfl
  | cons p t ih =>
    rcases p with ⟨s, g⟩
    by_cases hf : g = some "female"
    · subst hf
      simp [bucketLoop, ih, List.filter_cons]
    · by_cases hm : g = some "male"
      · subst hm
        simp [bucketLoop, ih, List.filter_cons]
      · simp [bucketLoop, ih, List.filter_cons, hf, hm]

/-- C8 amended: a successful split tags every ranked scheme in order and
produces: neutral = the unrestricted schemes in input order (a sublist of
the input), male = the male-restricted schemes in input order followed by
the whole neutral bucket, and female likewise - so the two gendered
buckets are order-preserving only within each half, not across the
concatenation.  The consumer selection returns the male bucket for a
declared male gender, the female bucket for female, and the neutral bucket
for anything else or no declared gender. -/
theorem bucket_structure_amended (ranked : List SchemeDict) (bks : GenderBuckets)
    (h : split_by_gender_buckets ranked = Except.ok bks) :
    (∃ tagged : List (SchemeDict × Option String),
       ranked = tagged.map Prod.fst
       ∧ (∀ p ∈ tagged, tagOf p.1 = Except.ok p.2)
       ∧ bks.neutral = (tagged.filter (fun p => !(p.2 == some "female") && !(p.2 == some "male"))).map Prod.fst
       ∧ bks.male = (tagged.filter (fun p => p.2 == some "male")).map Prod.fst ++ bks.neutral
       ∧ bks.female = (tagged.filter (fun p => p.2 == some "female")).map Prod.fst ++ bks.neutral)
    ∧ bks.neutral.Sublist ranked
    ∧ select_bucket bks (some "male") = bks.male
    ∧ select_bucket bks (some "female") = bks.female
    ∧ select_bucket bks (some "Other") = bks.neutral
    ∧ select_bucket bks Option.none = bks.neutral := by
  unfold split_by_gender_buckets at h
  cases ht : tagAll ranked with
  | error e => rw [ht] at h; cases h
  | ok tagged =>
    rw [ht] at h
    dsimp only at h
    rw [bucketLoop_eq_filters] at h
    dsimp only at h
    cases h
    obtain ⟨h1, h2⟩ := tagAll_inversion ranked tagged ht
    refine ⟨⟨tagged, h1, h2, rfl, rfl, rfl⟩, ?_, ?_, ?_, ?_, ?_⟩
    · rw [h1]
      exact List.Sublist.map Prod.fst (List.filter_sublist tagged)
    · with_unfolding_all rfl
    · with_unfolding_all rfl
    · with_unfolding_all rfl
    · with_unfolding_all rfl

/-- The buckets a successful split carries. -/
def bucketsOf (e : Except Unit GenderBuckets) : GenderBuckets :=
  match e with
  | .ok b => b
  | .error _ => ⟨[], [], []⟩

/-- The buckets of the two-scheme C8 example. -/
def c8bks : GenderBuckets := bucketsOf (split_by_gender_buckets [openScheme, maleScheme])

set_option maxHeartbeats 4000000 in
/-- Closed instance of the C8 amended theorem at the two-scheme example,
discharging its hypothesis by computation. -/
theorem bucket_structure_amended_witness :
    (∃ tagged : List (SchemeDict × Option String),
       [openScheme, maleScheme] = tagged.map Prod.fst
       ∧ (∀ p ∈ tagged, tagOf p.1 = Except.ok p.2)
       ∧ c8bks.neutral = (tagged.filter (fun p => !(p.2 == some "female") && !(p.2 == some "male"))).map Prod.fst
       ∧ c8bks.male = (tagged.filter (fun p => p.2 == some "male")).map Prod.fst ++ c8bks.neutral
       ∧ c8bks.female = (tagged.filter (fun p => p.2 == some "female")).map Prod.fst ++ c8bks.neutral)
    ∧ c8bks.neutral.Sublist [openScheme, maleScheme]
    ∧ select_bucket c8bks (some "male") = c8bks.male
    ∧ select_bucket c8bks (some "female") = c8bks.female
    ∧ select_bucket c8bks (some "Other") = c8bks.neutral
    ∧ select_bucket c8bks Option.none = c8bks.neutral :=
  bucket_structure_amended [openScheme, maleScheme] c8bks (by with_unfolding_all rfl)
